import Mathlib

/-!
Shallow embedding of the AquaECO aquaponics dashboard
(`src/stackai_streamlit.py`) and verification of its specification.

Modelling conventions:
* Python floats are modelled as rationals (`ℚ`); the arithmetic in the
  script is plain field arithmetic, comparisons and means.
* A pandas `Series` is a list of rational values together with its index:
  a flag recording whether the index is a `DatetimeIndex`, and the list of
  index values (timestamps as rationals, in seconds).
* `NaN` results (mean of an empty series) and raised exceptions are both
  modelled with `Option`: `none` means the Python computation does not
  produce a usable value.
* A pandas `DataFrame` is a list of named, dtyped columns plus a list of
  rows of rationals.
-/

namespace Aquatic

/-- A pandas Series: values plus its index.  `hasDatetimeIndex` records
whether `isinstance(series.index, pd.DatetimeIndex)` holds; `index` holds
the index values (timestamps, as rationals) when it does. -/
structure Series where
  hasDatetimeIndex : Bool
  index : List ℚ
  values : List ℚ
deriving Repr, DecidableEq

/-- Model of `series.mean()`: arithmetic mean of the values, `none` (pandas `NaN`)
when the series is empty. -/
def seriesMean (xs : List ℚ) : Option ℚ :=
  if xs.isEmpty then none else some (xs.sum / (xs.length : ℚ))

/-- Model of `series.tail(n)`: the trailing `min n (length xs)` elements. -/
def seriesTail (n : ℕ) (xs : List ℚ) : List ℚ :=
  xs.drop (xs.length - n)

/-- One hour, in seconds, for the `DatetimeIndex` offsets. -/
def oneHour : ℚ := 3600

/-- Model of `series.last(offset)` for a series with a (sorted) `DatetimeIndex`:
pandas computes `start = index[-1] - offset` and keeps the rows with index
strictly after `start` when `start` occurs in the index, and the rows with
index at least `start` otherwise. -/
def pandasLast (idx : List ℚ) (vals : List ℚ) (offset : ℚ) : List ℚ :=
  match idx.getLast? with
  | none => vals
  | some lastT =>
      let start := lastT - offset
      if start ∈ idx then
        (idx.zip vals).filterMap (fun p => if start < p.1 then some p.2 else none)
      else
        (idx.zip vals).filterMap (fun p => if start ≤ p.1 then some p.2 else none)

/-- Embedding of `compute_reference(series)` from `show_metrics` (the window choice is a
closure variable in the source and an explicit argument here).  Dispatches
on the window-choice string exactly as the Python `if/elif` chain does,
falling through to `series.mean()` for any other string. -/
def compute_reference (series : Series) (window_choice : String) : Option ℚ :=
  if window_choice = "Global Average" then
    seriesMean series.values
  else if window_choice = "Last 1h" then
    if series.hasDatetimeIndex then
      seriesMean (pandasLast series.index series.values oneHour)
    else
      seriesMean (seriesTail 12 series.values)
  else if window_choice = "Last 6h" then
    if series.hasDatetimeIndex then
      seriesMean (pandasLast series.index series.values (6 * oneHour))
    else
      seriesMean (seriesTail 72 series.values)
  else if window_choice = "Last 24h" then
    if series.hasDatetimeIndex then
      seriesMean (pandasLast series.index series.values (24 * oneHour))
    else
      seriesMean (seriesTail 288 series.values)
  else
    seriesMean series.values

/-- The rising glyph returned by `get_trend_icon`. -/
def risingIcon : String := "<span style=\"color:#2e7d32;\">📈</span>"

/-- The falling glyph returned by `get_trend_icon`. -/
def fallingIcon : String := "<span style=\"color:#d32f2f;\">📉</span>"

/-- The stable glyph returned by `get_trend_icon`. -/
def stableIcon : String := "<span style=\"color:#6c757d;\">➡️</span>"

/-- Embedding of `get_trend_icon(latest, ref)` from `show_metrics` (the tolerance
percentage is a closure variable in the source and an explicit argument
here): `tol = abs(ref) * (tolerance_pct / 100)`, then the three-way
classification. -/
def get_trend_icon (tolerance_pct latest ref : ℚ) : String :=
  let tol := |ref| * (tolerance_pct / 100)
  if latest > ref + tol then risingIcon
  else if latest < ref - tol then fallingIcon
  else stableIcon

/-- The deviation percentage computed inside `render_metric`:
`((latest_value - ref_numeric) / abs(ref_numeric) * 100) if ref_numeric != 0 else 0.0`. -/
def pct_dev (latest_value ref_numeric : ℚ) : ℚ :=
  if ref_numeric ≠ 0 then (latest_value - ref_numeric) / |ref_numeric| * 100 else 0

/-- The data shown on one metric card by `render_metric`. -/
structure MetricCard where
  title : String
  latest : ℚ
  ref : ℚ
  unit : String
  category : String
  trend_icon : String
  deviation_pct : ℚ
deriving Repr, DecidableEq

/-- Embedding of `render_metric(title, latest_value, ref_numeric, unit, category)`:
assembles the card with its trend glyph and deviation percentage. -/
def render_metric (tolerance_pct : ℚ) (title : String) (latest_value ref_numeric : ℚ)
    (unit category : String) : MetricCard :=
  { title := title
    latest := latest_value
    ref := ref_numeric
    unit := unit
    category := category
    trend_icon := get_trend_icon tolerance_pct latest_value ref_numeric
    deviation_pct := pct_dev latest_value ref_numeric }

/-- A pandas column dtype, at the granularity the script inspects:
`select_dtypes(include=["float64", "int64"])` keeps the first two. -/
inductive Dtype where
  | float64 : Dtype
  | int64 : Dtype
  | object : Dtype
  | datetime64 : Dtype
deriving Repr, DecidableEq

/-- Whether `select_dtypes(include=["float64", "int64"])` keeps this dtype. -/
def Dtype.isNumeric : Dtype → Bool
  | Dtype.float64 => true
  | Dtype.int64 => true
  | _ => false

/-- A named, dtyped DataFrame column. -/
structure Column where
  name : String
  dtype : Dtype
deriving Repr, DecidableEq

/-- A pandas DataFrame: named columns and rows of rational cell values
(cell values of every dtype are abstracted to rationals; for a parsed
timestamp the rational is the time in seconds). -/
structure Table where
  cols : List Column
  rows : List (List ℚ)
deriving Repr, DecidableEq

/-- Model of `df.columns` as a list of names. -/
def Table.colNames (df : Table) : List String :=
  df.cols.map Column.name

/-- Position of a named column in a column list, `none` when absent. -/
def colIdxAux : List Column → String → Option ℕ
  | [], _ => none
  | c :: cs, name =>
      if c.name == name then some 0 else (colIdxAux cs name).map (· + 1)

/-- Position of a named column, `none` when absent. -/
def colIdx (df : Table) (name : String) : Option ℕ :=
  colIdxAux df.cols name

/-- Model of the membership test `name in df.columns`. -/
def hasCol (df : Table) (name : String) : Bool :=
  df.colNames.contains name

/-- The cell of a row in column position `i` (rows are rectangular, so the
default is never reached on well-formed tables). -/
def rowKey (i : ℕ) (r : List ℚ) : ℚ :=
  r.getD i 0

/-- Model of `df[name]` as a list of values, `[]` when the column is absent (in
Python an absent column raises, and every later step of the script then
produces nothing; the empty list makes the same render pass produce
`none`, see `metric_card`). -/
def colVals (df : Table) (name : String) : List ℚ :=
  match colIdx df name with
  | some i => df.rows.map (rowKey i)
  | none => []

/-- Model of `pd.to_datetime` on one cell, modelled as the identity on the rational
timestamp abstraction (the actual string-to-datetime parsing is external
pandas behaviour; only the resulting order matters to the script). -/
def to_datetime (x : ℚ) : ℚ := x

/-- Model of `df[col] = pd.to_datetime(df[col])`: maps `to_datetime` over the named
column and marks its dtype as datetime. -/
def parseTimestampCol (df : Table) (name : String) : Table :=
  match colIdx df name with
  | some i =>
      { cols := df.cols.map (fun c =>
          if c.name == name then { c with dtype := Dtype.datetime64 } else c)
        rows := df.rows.map (fun r => r.set i (to_datetime (rowKey i r))) }
  | none => df

/-- Model of `df.sort_values(col)`: rows reordered ascending by the cell value in
the named column; identity when the column is absent. -/
def sort_values (df : Table) (name : String) : Table :=
  match colIdx df name with
  | some i =>
      { df with rows := df.rows.mergeSort (fun r s => decide (rowKey i r ≤ rowKey i s)) }
  | none => df

/-- The candidate timestamp column names, in the priority order of the
`for col in ["date", "timestamp", "time", "datetime"]` loop. -/
def timestampCandidates : List String :=
  ["date", "timestamp", "time", "datetime"]

/-- The column chosen by the loop in `load_data`: the first candidate name
present in the table (the loop breaks at the first hit). -/
def chooseTimestampCol (df : Table) : Option String :=
  timestampCandidates.find? (fun c => hasCol df c)

/-- The timestamp-standardisation step of `load_data` on a successfully
parsed table: parse and sort by the first candidate column present, or
leave the table untouched. -/
def standardize (df : Table) : Table :=
  match chooseTimestampCol df with
  | some c => sort_values (parseTimestampCol df c) c
  | none => df

/-- Embedding of `load_data(url)`: the outcome of the external `pd.read_csv` fetch and
parse is the `Except` input.  On success the table is standardised and
returned with no error messages; on any exception a single
`st.error` message is emitted and `None` is returned. -/
def load_data (fetched : Except String Table) : Option Table × List String :=
  match fetched with
  | Except.ok df => (some (standardize df), [])
  | Except.error e => (none, ["Error loading data: " ++ e])

/-- The energy metric rows of `show_metrics`: title, column, unit. -/
def energy_metrics : List (String × String × String) :=
  [("Solar Power", "solar", "kW"),
   ("Wind Power", "wind", "kW"),
   ("Biogas Power", "biogas", "kW")]

/-- The operations metric rows of `show_metrics`. -/
def ops_metrics : List (String × String × String) :=
  [("Pumps Usage", "pumps", "kW"),
   ("Lighting", "lighting", "kW"),
   ("Climate Control", "climate_control", "kW"),
   ("Other Ops", "other_operations", "kW")]

/-- The water-quality metric rows of `show_metrics`. -/
def water_metrics : List (String × String × String) :=
  [("Temperature", "temperature", "°C"),
   ("Humidity", "humidity", "%"),
   ("pH", "pH", ""),
   ("ORP", "orp", "mV"),
   ("EC", "ec", "mS/cm"),
   ("TDS", "tds", "ppm"),
   ("Dissolved Oxygen", "do", "mg/L")]

/-- Model of `df[name]` as a Series.  The script never sets a `DatetimeIndex` on a
loaded table (the timestamp stays an ordinary column), so the index of a
column series is never a `DatetimeIndex`. -/
def colSeries (df : Table) (name : String) : Series :=
  { hasDatetimeIndex := false, index := [], values := colVals df name }

/-- Model of `series.iloc[-1]`, `none` when the series is empty (Python raises). -/
def ilocLast (xs : List ℚ) : Option ℚ :=
  xs.getLast?

/-- One metric of `show_metrics`: `ref = compute_reference(series)`,
`latest = series.iloc[-1]`, then `render_metric`.  `none` when the column
is absent or empty (the Python pass raises there). -/
def metric_card (window_choice : String) (tolerance_pct : ℚ) (df : Table)
    (m : String × String × String) (category : String) : Option MetricCard := do
  let series := colSeries df m.2.1
  let ref ← compute_reference series window_choice
  let latest ← ilocLast series.values
  pure (render_metric tolerance_pct m.1 latest ref m.2.2 category)

/-- Traversal of a metric list, rendering each entry in order and failing
as soon as one entry fails (the Python for-loop raises at the first
missing or empty column). -/
def optionMapM {α β : Type} (f : α → Option β) : List α → Option (List β)
  | [] => some []
  | a :: t => do
      let b ← f a
      let bs ← optionMapM f t
      pure (b :: bs)

/-- Embedding of `show_metrics(energy_df, water_df)`: the three groups of metric cards,
in render order. -/
def show_metrics (window_choice : String) (tolerance_pct : ℚ)
    (energy_df water_df : Table) : Option (List MetricCard) := do
  let e ← optionMapM (fun m => metric_card window_choice tolerance_pct energy_df m "energy") energy_metrics
  let o ← optionMapM (fun m => metric_card window_choice tolerance_pct energy_df m "operations") ops_metrics
  let w ← optionMapM (fun m => metric_card window_choice tolerance_pct water_df m "water") water_metrics
  pure (e ++ o ++ w)

/-- One rendered artefact of the dashboard pass, carrying the data it is
built from. -/
inductive RenderItem where
  | warning : String → RenderItem
  | markdown : String → RenderItem
  | card : MetricCard → RenderItem
  | energyChart : Table → RenderItem
  | pieChart : List (String × ℚ) → RenderItem
  | rawData : Table → RenderItem
  | tempHumidityChart : Table → RenderItem
  | heatmap : List String → Table → RenderItem
deriving Repr, DecidableEq

/-- Whether a render item is the correlation heatmap. -/
def RenderItem.isHeatmap : RenderItem → Bool
  | RenderItem.heatmap _ _ => true
  | _ => false

/-- The warning shown when either dataset failed to load. -/
def warningMsg : String := "No data available - please check your data sources"

/-- Model of `df[name].sum()` for the pie chart. -/
def sumCol (df : Table) (name : String) : ℚ :=
  (colVals df name).sum

/-- Model of `df.select_dtypes(include=["float64", "int64"]).columns`. -/
def numericColNames (df : Table) : List String :=
  (df.cols.filter (fun c => c.dtype.isNumeric)).map Column.name

/-- Embedding of `render_dashboard()` given the two load results and the sidebar trend
settings: when either table is absent, a single warning and nothing else;
otherwise the metric cards followed by the chart tabs, with the
correlation heatmap present exactly when `len(water_df.columns) > 2`.
`none` models the pass raising inside `show_metrics`. -/
def render_dashboard (window_choice : String) (tolerance_pct : ℚ)
    (energy_df water_df : Option Table) : Option (List RenderItem) :=
  match energy_df, water_df with
  | some edf, some wdf =>
      (show_metrics window_choice tolerance_pct edf wdf).map (fun cards =>
        [RenderItem.markdown "## System Metrics Overview"]
        ++ cards.map RenderItem.card
        ++ [RenderItem.energyChart edf,
            RenderItem.pieChart
              [("solar", sumCol edf "solar"), ("biogas", sumCol edf "biogas"),
               ("wind", sumCol edf "wind")],
            RenderItem.rawData edf,
            RenderItem.tempHumidityChart wdf]
        ++ (if 2 < wdf.cols.length then [RenderItem.heatmap (numericColNames wdf) wdf] else [])
        ++ [RenderItem.rawData wdf])
  | _, _ => some [RenderItem.warning warningMsg]

/-- Whether the dashboard pass rendered the correlation heatmap. -/
def rendersHeatmap (o : Option (List RenderItem)) : Bool :=
  match o with
  | some l => l.any RenderItem.isHeatmap
  | none => false

/-- Embedding of `main()`: the navigation option selects the view; for the Dashboard
view the sidebar date inputs `start_date` and `end_date` are collected
(arguments here) but, exactly as in the source, never passed to any
renderer; the two datasets are loaded and handed to `render_dashboard`. -/
def main (navChoice : String) (start_date end_date : ℚ)
    (window_choice : String) (tolerance_pct : ℚ)
    (energyFetch waterFetch : Except String Table) : Option (List RenderItem) :=
  if navChoice = "Dashboard" then
    render_dashboard window_choice tolerance_pct
      (load_data energyFetch).1 (load_data waterFetch).1
  else
    some [RenderItem.markdown "AI Assistant"]

/-- Raw table used to exercise the timestamp standardisation path. -/
def sampleRaw : Table :=
  { cols := [{ name := "date", dtype := Dtype.int64 },
             { name := "solar", dtype := Dtype.float64 }]
    rows := [[2, 10], [1, 20]] }

/-- Energy table with all seven metric columns and one row. -/
def energySample : Table :=
  { cols := [{ name := "solar", dtype := Dtype.float64 },
             { name := "wind", dtype := Dtype.float64 },
             { name := "biogas", dtype := Dtype.float64 },
             { name := "pumps", dtype := Dtype.float64 },
             { name := "lighting", dtype := Dtype.float64 },
             { name := "climate_control", dtype := Dtype.float64 },
             { name := "other_operations", dtype := Dtype.float64 }]
    rows := [[5, 3, 2, 1, 1, 1, 1]] }

/-- Water-quality table with all seven metric columns, of which exactly two
carry a numeric dtype (the rest are object columns holding numbers), plus
a timestamp column: eight columns in total. -/
def waterTwoNumeric : Table :=
  { cols := [{ name := "timestamp", dtype := Dtype.datetime64 },
             { name := "temperature", dtype := Dtype.float64 },
             { name := "humidity", dtype := Dtype.float64 },
             { name := "pH", dtype := Dtype.object },
             { name := "orp", dtype := Dtype.object },
             { name := "ec", dtype := Dtype.object },
             { name := "tds", dtype := Dtype.object },
             { name := "do", dtype := Dtype.object }]
    rows := [[0, 25, 60, 7, 300, 2, 500, 6]] }

/-! ### Helper lemmas -/

theorem isEmpty_false_of_ne_nil {xs : List ℚ} (h : xs ≠ []) : xs.isEmpty = false := by
  cases xs with
  | nil => exact absurd rfl h
  | cons a t => rfl

theorem seriesTail_ne_nil {xs : List ℚ} (h : xs ≠ []) (n : ℕ) (hn : 0 < n) :
    seriesTail n xs ≠ [] := by
  unfold seriesTail
  intro hc
  have hlen := congrArg List.length hc
  simp only [List.length_drop, List.length_nil] at hlen
  have hpos : 0 < xs.length := List.length_pos.mpr h
  omega

theorem find?_first {α : Type} (p : α → Bool) :
    ∀ (l : List α) (c : α), l.find? p = some c →
      p c = true ∧ ∃ pre post, l = pre ++ c :: post ∧ ∀ a ∈ pre, p a = false := by
  intro l
  induction l with
  | nil => intro c hc; simp at hc
  | cons a t ih =>
    intro c hc
    by_cases ha : p a = true
    · rw [List.find?_cons_of_pos _ ha] at hc
      cases hc
      exact ⟨ha, [], t, rfl, by simp⟩
    · rw [List.find?_cons_of_neg _ ha] at hc
      obtain ⟨hp, pre, post, heq, hpre⟩ := ih c hc
      refine ⟨hp, a :: pre, post, by rw [heq]; rfl, ?_⟩
      intro x hx
      rcases List.mem_cons.mp hx with h | h
      · subst h; exact Bool.eq_false_iff.mpr ha
      · exact hpre x h

/-! ### Claim theorems -/

/-- C1: for every `latest`, `ref` and tolerance percentage
`tolerance_pct ≥ 0`, `get_trend_icon` produces the rising glyph iff
`latest > ref + |ref| * tolerance_pct / 100`, the falling glyph iff
`latest < ref - |ref| * tolerance_pct / 100`, and the stable glyph
otherwise; the result is always one of the three pairwise-distinct glyphs,
so exactly one class is produced. -/
theorem trend_classification (latest ref tolerance_pct : ℚ)
    (h : 0 ≤ tolerance_pct) :
    ((get_trend_icon tolerance_pct latest ref = risingIcon ↔
        ref + |ref| * (tolerance_pct / 100) < latest)
      ∧ (get_trend_icon tolerance_pct latest ref = fallingIcon ↔
        latest < ref - |ref| * (tolerance_pct / 100))
      ∧ (get_trend_icon tolerance_pct latest ref = stableIcon ↔
        (ref - |ref| * (tolerance_pct / 100) ≤ latest ∧
         latest ≤ ref + |ref| * (tolerance_pct / 100))))
    ∧ (get_trend_icon tolerance_pct latest ref = risingIcon ∨
       get_trend_icon tolerance_pct latest ref = fallingIcon ∨
       get_trend_icon tolerance_pct latest ref = stableIcon)
    ∧ risingIcon ≠ fallingIcon ∧ fallingIcon ≠ stableIcon ∧
      risingIcon ≠ stableIcon := by
  have htol : 0 ≤ |ref| * (tolerance_pct / 100) :=
    mul_nonneg (abs_nonneg ref) (div_nonneg h (by norm_num))
  simp only [get_trend_icon]
  split_ifs with h1 h2
  · exact ⟨⟨iff_of_true rfl h1,
      iff_of_false (by decide) (by intro hc; linarith),
      iff_of_false (by decide) (fun hc => absurd h1 (not_lt.mpr hc.2))⟩,
      Or.inl rfl, by decide, by decide, by decide⟩
  · exact ⟨⟨iff_of_false (by decide) h1,
      iff_of_true rfl h2,
      iff_of_false (by decide) (fun hc => absurd h2 (not_lt.mpr hc.1))⟩,
      Or.inr (Or.inl rfl), by decide, by decide, by decide⟩
  · exact ⟨⟨iff_of_false (by decide) h1,
      iff_of_false (by decide) h2,
      iff_of_true rfl ⟨not_lt.mp h2, not_lt.mp h1⟩⟩,
      Or.inr (Or.inr rfl), by decide, by decide, by decide⟩

/-- Witness for C1: at `latest = 5`, `ref = 3`, `tolerance_pct = 1` the
classification is rising. -/
theorem trend_classification_witness : get_trend_icon 1 5 3 = risingIcon :=
  ((trend_classification 5 3 1 (by norm_num)).1.1).mpr (by
    rw [show |(3 : ℚ)| = 3 from abs_of_pos (by norm_num)]; norm_num)

/-- C2: on every non-empty series, `compute_reference` with window choice
"Global Average" returns the arithmetic mean of all values, whatever the
index of the series is. -/
theorem global_average_is_mean (s : Series) (h : s.values ≠ []) :
    compute_reference s "Global Average" =
      some (s.values.sum / (s.values.length : ℚ)) := by
  have he := isEmpty_false_of_ne_nil h
  simp [compute_reference, seriesMean, he]

/-- Witness for C2: the global average of `[1, 2, 3, 4, 5]` is `3`. -/
theorem global_average_is_mean_witness :
    compute_reference
      { hasDatetimeIndex := false, index := [], values := [1, 2, 3, 4, 5] }
      "Global Average" = some 3 := by
  rw [global_average_is_mean _ (by decide)]
  norm_num [List.sum_cons, List.sum_nil]

/-- C3: on every non-empty series whose index is not a `DatetimeIndex`,
`compute_reference` with "Last 1h" / "Last 6h" / "Last 24h" returns the
mean of the trailing 12 / 72 / 288 rows, and the trailing window is the
whole series when the series is shorter than the window. -/
theorem tail_window_reference (s : Series) (hdt : s.hasDatetimeIndex = false)
    (hne : s.values ≠ []) :
    (compute_reference s "Last 1h" =
        some ((seriesTail 12 s.values).sum / ((seriesTail 12 s.values).length : ℚ))
      ∧ compute_reference s "Last 6h" =
        some ((seriesTail 72 s.values).sum / ((seriesTail 72 s.values).length : ℚ))
      ∧ compute_reference s "Last 24h" =
        some ((seriesTail 288 s.values).sum / ((seriesTail 288 s.values).length : ℚ)))
    ∧ ∀ n, s.values.length ≤ n → seriesTail n s.values = s.values := by
  have h12 := isEmpty_false_of_ne_nil (seriesTail_ne_nil hne 12 (by norm_num))
  have h72 := isEmpty_false_of_ne_nil (seriesTail_ne_nil hne 72 (by norm_num))
  have h288 := isEmpty_false_of_ne_nil (seriesTail_ne_nil hne 288 (by norm_num))
  refine ⟨⟨?_, ?_, ?_⟩, ?_⟩
  · simp [compute_reference, seriesMean, hdt, h12]
  · simp [compute_reference, seriesMean, hdt, h72]
  · simp [compute_reference, seriesMean, hdt, h288]
  · intro n hn
    unfold seriesTail
    rw [Nat.sub_eq_zero_of_le hn, List.drop_zero]

/-- Witness for C3: for the short series `[1, 2, 3]` the "Last 1h" window
covers the whole series and the reference is `2`. -/
theorem tail_window_reference_witness :
    compute_reference { hasDatetimeIndex := false, index := [], values := [1, 2, 3] }
      "Last 1h" = some 2 := by
  rw [(tail_window_reference
    { hasDatetimeIndex := false, index := [], values := [1, 2, 3] }
    rfl (by decide)).1.1]
  norm_num [seriesTail, List.sum_cons, List.sum_nil]

/-- C4: the deviation percentage of `render_metric` is `0` when the
reference is `0`, and `(latest - ref) / |ref| * 100` otherwise; in the
latter case the divisor `|ref|` is nonzero. -/
theorem deviation_percentage (latest ref tolerance_pct : ℚ)
    (title unit category : String) :
    (render_metric tolerance_pct title latest ref unit category).deviation_pct
      = pct_dev latest ref
    ∧ (ref = 0 → pct_dev latest ref = 0)
    ∧ (ref ≠ 0 → pct_dev latest ref = (latest - ref) / |ref| * 100 ∧ |ref| ≠ 0) := by
  refine ⟨rfl, ?_, ?_⟩
  · intro h
    simp [pct_dev, h]
  · intro h
    exact ⟨by simp [pct_dev, h], abs_ne_zero.mpr h⟩

/-- Witness for C4: deviation is `0` at reference `0`, and `+50%` for
latest `6` against reference `4`. -/
theorem deviation_percentage_witness :
    pct_dev 5 0 = 0 ∧ pct_dev 6 4 = 50 := by
  constructor
  · exact (deviation_percentage 5 0 1 "t" "u" "c").2.1 rfl
  · rw [(((deviation_percentage 6 4 1 "t" "u" "c").2.2) (by norm_num)).1,
      show |(4 : ℚ)| = 4 from abs_of_pos (by norm_num)]
    norm_num

/-- C5: with reference `0` the tolerance band is `0` for every tolerance
percentage, so the classification is rising iff `latest > 0`, falling iff
`latest < 0`, and stable iff `latest = 0`. -/
theorem zero_reference_trend (latest tolerance_pct : ℚ) :
    |(0 : ℚ)| * (tolerance_pct / 100) = 0
    ∧ (get_trend_icon tolerance_pct latest 0 = risingIcon ↔ 0 < latest)
    ∧ (get_trend_icon tolerance_pct latest 0 = fallingIcon ↔ latest < 0)
    ∧ (get_trend_icon tolerance_pct latest 0 = stableIcon ↔ latest = 0) := by
  have h0 : |(0 : ℚ)| * (tolerance_pct / 100) = 0 := by simp
  have key : get_trend_icon tolerance_pct latest 0 =
      if 0 < latest then risingIcon
      else if latest < 0 then fallingIcon
      else stableIcon := by
    simp only [get_trend_icon, abs_zero, zero_mul, add_zero, sub_zero, gt_iff_lt]
  rcases lt_trichotomy latest 0 with hl | hl | hl
  · rw [key, if_neg (by linarith), if_pos hl]
    exact ⟨h0, iff_of_false (by decide) (by linarith),
      iff_of_true rfl hl,
      iff_of_false (by decide) (by intro hc; rw [hc] at hl; exact lt_irrefl 0 hl)⟩
  · rw [key, if_neg (by rw [hl]; exact lt_irrefl 0),
      if_neg (by rw [hl]; exact lt_irrefl 0)]
    exact ⟨h0,
      iff_of_false (by decide) (by rw [hl]; exact lt_irrefl 0),
      iff_of_false (by decide) (by rw [hl]; exact lt_irrefl 0),
      iff_of_true rfl hl⟩
  · rw [key, if_pos hl]
    exact ⟨h0, iff_of_true rfl hl,
      iff_of_false (by decide) (by linarith),
      iff_of_false (by decide) (by intro hc; rw [hc] at hl; exact lt_irrefl 0 hl)⟩

/-- C10: on every non-empty series, any window-choice string other than
the four named options falls through to the final return and yields the
arithmetic mean of all values, the same result as "Global Average". -/
theorem unknown_window_fallthrough (s : Series) (wc : String)
    (h1 : wc ≠ "Global Average") (h2 : wc ≠ "Last 1h")
    (h3 : wc ≠ "Last 6h") (h4 : wc ≠ "Last 24h") (hne : s.values ≠ []) :
    compute_reference s wc = some (s.values.sum / (s.values.length : ℚ))
    ∧ compute_reference s wc = compute_reference s "Global Average" := by
  have he := isEmpty_false_of_ne_nil hne
  constructor
  · simp [compute_reference, h1, h2, h3, h4, seriesMean, he]
  · simp [compute_reference, h1, h2, h3, h4]

/-- Witness for C10: the unknown window choice "Median" yields the global
mean `3` on `[1, 2, 3, 4, 5]`. -/
theorem unknown_window_fallthrough_witness :
    compute_reference
      { hasDatetimeIndex := false, index := [], values := [1, 2, 3, 4, 5] }
      "Median" = some 3 := by
  rw [(unknown_window_fallthrough
    { hasDatetimeIndex := false, index := [], values := [1, 2, 3, 4, 5] }
    "Median" (by decide) (by decide) (by decide) (by decide) (by decide)).1]
  norm_num [List.sum_cons, List.sum_nil]

/-! ### Helper lemmas for the table pipeline -/

theorem colIdxAux_map_name_preserve (f : Column → Column)
    (hf : ∀ c, (f c).name = c.name) :
    ∀ (cs : List Column) (name : String),
      colIdxAux (cs.map f) name = colIdxAux cs name := by
  intro cs
  induction cs with
  | nil => intro name; rfl
  | cons a t ih => intro name; simp [colIdxAux, hf a, ih]

theorem colIdxAux_isSome_of_contains :
    ∀ (cs : List Column) (name : String),
      (cs.map Column.name).contains name = true →
      ∃ i, colIdxAux cs name = some i := by
  intro cs
  induction cs with
  | nil => intro name h; simp at h
  | cons a t ih =>
    intro name h
    by_cases ha : a.name == name
    · exact ⟨0, by simp [colIdxAux, ha]⟩
    · have h' : (t.map Column.name).contains name = true := by
        simp only [List.map_cons, List.contains_cons, Bool.or_eq_true] at h
        rcases h with h | h
        · exact absurd (beq_iff_eq.mpr (eq_of_beq h).symm) ha
        · exact h
      obtain ⟨i, hi⟩ := ih name h'
      exact ⟨i + 1, by simp [colIdxAux, ha, hi]⟩

theorem colVals_eq {t : Table} {name : String} {i : ℕ}
    (hi : colIdx t name = some i) :
    colVals t name = t.rows.map (rowKey i) := by
  unfold colVals
  rw [hi]

theorem sort_values_eq {t : Table} {name : String} {i : ℕ}
    (hi : colIdx t name = some i) :
    sort_values t name =
      { t with rows := t.rows.mergeSort (fun r s => decide (rowKey i r ≤ rowKey i s)) } := by
  unfold sort_values
  rw [hi]

theorem parseTimestampCol_eq {t : Table} {name : String} {i : ℕ}
    (hi : colIdx t name = some i) :
    parseTimestampCol t name =
      { cols := t.cols.map (fun col =>
          if col.name == name then { col with dtype := Dtype.datetime64 } else col)
        rows := t.rows.map (fun r => r.set i (to_datetime (rowKey i r))) } := by
  unfold parseTimestampCol
  rw [hi]

theorem colIdx_parseTimestampCol {t : Table} {name : String} {i : ℕ}
    (hi : colIdx t name = some i) (other : String) :
    colIdx (parseTimestampCol t name) other = colIdx t other := by
  rw [parseTimestampCol_eq hi]
  show colIdxAux (t.cols.map _) other = _
  rw [colIdxAux_map_name_preserve _ ?_]
  · rfl
  · intro col
    by_cases hcase : col.name == name <;> simp [hcase]

theorem compute_reference_isSome (s : Series) (hdt : s.hasDatetimeIndex = false)
    (hne : s.values ≠ []) (wc : String) :
    ∃ q, compute_reference s wc = some q := by
  have he := isEmpty_false_of_ne_nil hne
  have h12 := isEmpty_false_of_ne_nil (seriesTail_ne_nil hne 12 (by norm_num))
  have h72 := isEmpty_false_of_ne_nil (seriesTail_ne_nil hne 72 (by norm_num))
  have h288 := isEmpty_false_of_ne_nil (seriesTail_ne_nil hne 288 (by norm_num))
  unfold compute_reference seriesMean
  simp only [hdt, Bool.false_eq_true, if_false, he, h12, h72, h288]
  split_ifs <;> exact ⟨_, rfl⟩

theorem metric_card_isSome (wc : String) (tol : ℚ) (df : Table)
    (m : String × String × String) (cat : String)
    (h : colVals df m.2.1 ≠ []) :
    (metric_card wc tol df m cat).isSome = true := by
  obtain ⟨q, hq⟩ := compute_reference_isSome (colSeries df m.2.1) rfl h wc
  have hl : (colVals df m.2.1).getLast?.isSome = true :=
    List.getLast?_isSome.mpr h
  obtain ⟨a, ha⟩ := Option.isSome_iff_exists.mp hl
  simp only [colSeries] at hq
  simp [metric_card, colSeries, ilocLast, hq, ha]

theorem optionMapM_isSome {α β : Type} (f : α → Option β) :
    ∀ (l : List α), (∀ a ∈ l, (f a).isSome = true) →
      (optionMapM f l).isSome = true := by
  intro l
  induction l with
  | nil => intro _; rfl
  | cons a t ih =>
    intro h
    obtain ⟨b, hb⟩ := Option.isSome_iff_exists.mp (h a (List.mem_cons_self a t))
    obtain ⟨bs, hbs⟩ :=
      Option.isSome_iff_exists.mp (ih (fun x hx => h x (List.mem_cons_of_mem a hx)))
    simp [optionMapM, hb, hbs]

theorem show_metrics_isSome (wc : String) (tol : ℚ) (edf wdf : Table)
    (he : ∀ m ∈ energy_metrics, colVals edf m.2.1 ≠ [])
    (ho : ∀ m ∈ ops_metrics, colVals edf m.2.1 ≠ [])
    (hw : ∀ m ∈ water_metrics, colVals wdf m.2.1 ≠ []) :
    (show_metrics wc tol edf wdf).isSome = true := by
  obtain ⟨e, hee⟩ := Option.isSome_iff_exists.mp
    (optionMapM_isSome _ energy_metrics
      (fun m hm => metric_card_isSome wc tol edf m "energy" (he m hm)))
  obtain ⟨o, hoo⟩ := Option.isSome_iff_exists.mp
    (optionMapM_isSome _ ops_metrics
      (fun m hm => metric_card_isSome wc tol edf m "operations" (ho m hm)))
  obtain ⟨w, hww⟩ := Option.isSome_iff_exists.mp
    (optionMapM_isSome _ water_metrics
      (fun m hm => metric_card_isSome wc tol wdf m "water" (hw m hm)))
  simp [show_metrics, hee, hoo, hww]

theorem rendersHeatmap_eq (wc : String) (tol : ℚ) (edf wdf : Table)
    (cards : List MetricCard) (hc : show_metrics wc tol edf wdf = some cards) :
    rendersHeatmap (render_dashboard wc tol (some edf) (some wdf))
      = decide (2 < wdf.cols.length) := by
  by_cases hlen : 2 < wdf.cols.length <;>
    simp [render_dashboard, hc, rendersHeatmap, hlen, RenderItem.isHeatmap,
      List.any_map, Function.comp, List.any_append]

/-- C6 counterexample: a water-quality table with exactly 2 numeric
columns (temperature and humidity; the other five metric columns carry
object dtype and the timestamp column is datetime) for which the dashboard
nevertheless renders the correlation heatmap, because the source guards
the heatmap on `len(water_df.columns) > 2`, the total column count, not
the numeric column count. -/
theorem heatmap_two_numeric_rendered :
    (numericColNames waterTwoNumeric).length = 2
    ∧ rendersHeatmap (render_dashboard "Global Average" 1
        (some energySample) (some waterTwoNumeric)) = true := by
  constructor
  · rfl
  · obtain ⟨cards, hc⟩ := Option.isSome_iff_exists.mp
      (show_metrics_isSome "Global Average" 1 energySample waterTwoNumeric
        (by decide) (by decide) (by decide))
    rw [rendersHeatmap_eq "Global Average" 1 energySample waterTwoNumeric cards hc]
    decide

/-- C6 (amended): whenever the metrics pass succeeds, the dashboard
renders the correlation heatmap exactly when the water table has more
than 2 columns in total (whatever their dtypes); with at most 2 total
columns the heatmap is skipped. -/
theorem heatmap_guard_total_columns (window_choice : String) (tolerance_pct : ℚ)
    (edf wdf : Table)
    (h : (show_metrics window_choice tolerance_pct edf wdf).isSome = true) :
    rendersHeatmap (render_dashboard window_choice tolerance_pct (some edf) (some wdf))
      = decide (2 < wdf.cols.length) := by
  obtain ⟨cards, hc⟩ := Option.isSome_iff_exists.mp h
  exact rendersHeatmap_eq window_choice tolerance_pct edf wdf cards hc

/-- Witness for amended C6: on the sample tables the metrics pass
succeeds and the heatmap guard evaluates on the total column count. -/
theorem heatmap_guard_total_columns_witness :
    (show_metrics "Last 1h" 1 energySample waterTwoNumeric).isSome = true
    ∧ rendersHeatmap (render_dashboard "Last 1h" 1
        (some energySample) (some waterTwoNumeric))
      = decide (2 < waterTwoNumeric.cols.length) := by
  have h : (show_metrics "Last 1h" 1 energySample waterTwoNumeric).isSome = true :=
    show_metrics_isSome "Last 1h" 1 energySample waterTwoNumeric
      (by decide) (by decide) (by decide)
  exact ⟨h, heatmap_guard_total_columns "Last 1h" 1 energySample waterTwoNumeric h⟩

/-- C7: `load_data` on a successfully parsed table picks the first present
column among date, timestamp, time, datetime (in that priority order,
case-sensitively), parses it as timestamps and returns the table sorted
ascending by that column (the sorted rows being a permutation of the
parsed rows); with no candidate present the table is returned unchanged,
in its original row order. -/
theorem load_data_timestamp_standardization (df : Table) :
    (chooseTimestampCol df = none → load_data (Except.ok df) = (some df, []))
    ∧ ∀ c, chooseTimestampCol df = some c →
        hasCol df c = true
        ∧ (∃ pre post, timestampCandidates = pre ++ c :: post
            ∧ ∀ c' ∈ pre, hasCol df c' = false)
        ∧ load_data (Except.ok df) = (some (sort_values (parseTimestampCol df c) c), [])
        ∧ List.Pairwise (· ≤ ·) (colVals (standardize df) c)
        ∧ (standardize df).rows.Perm (parseTimestampCol df c).rows := by
  constructor
  · intro h
    simp [load_data, standardize, h]
  · intro c hc
    obtain ⟨hp, pre, post, heq, hpre⟩ := find?_first _ _ _ hc
    have hstd : standardize df = sort_values (parseTimestampCol df c) c := by
      simp [standardize, hc]
    obtain ⟨i, hi⟩ := colIdxAux_isSome_of_contains df.cols c hp
    have hi' : colIdx df c = some i := hi
    have hgidx : colIdx (parseTimestampCol df c) c = some i := by
      rw [colIdx_parseTimestampCol hi' c]
      exact hi'
    have hrows : (sort_values (parseTimestampCol df c) c).rows =
        (parseTimestampCol df c).rows.mergeSort
          (fun r s => decide (rowKey i r ≤ rowKey i s)) := by
      rw [sort_values_eq hgidx]
    have hsvidx : colIdx (sort_values (parseTimestampCol df c) c) c = some i := by
      rw [sort_values_eq hgidx]
      exact hgidx
    refine ⟨hp, ⟨pre, post, heq, fun c' h' => hpre c' h'⟩, ?_, ?_, ?_⟩
    · simp [load_data, hstd]
    · rw [hstd, colVals_eq hsvidx, hrows]
      refine List.pairwise_map.mpr ?_
      have htr : ∀ (a b d : List ℚ),
          (fun r s => decide (rowKey i r ≤ rowKey i s)) a b = true →
          (fun r s => decide (rowKey i r ≤ rowKey i s)) b d = true →
          (fun r s => decide (rowKey i r ≤ rowKey i s)) a d = true := by
        intro a b d hab hbd
        simp only [decide_eq_true_eq] at hab hbd ⊢
        exact le_trans hab hbd
      have hto : ∀ (a b : List ℚ),
          ((fun r s => decide (rowKey i r ≤ rowKey i s)) a b
            || (fun r s => decide (rowKey i r ≤ rowKey i s)) b a) = true := by
        intro a b
        simp only [Bool.or_eq_true, decide_eq_true_eq]
        exact le_total _ _
      have hs := List.sorted_mergeSort htr hto (parseTimestampCol df c).rows
      exact hs.imp (fun h => of_decide_eq_true h)
    · rw [hstd, hrows]
      exact List.mergeSort_perm _ _

/-- Witness for C7: on a 2-column table with a "date" column, `load_data`
parses and sorts by that column. -/
theorem load_data_timestamp_witness :
    load_data (Except.ok sampleRaw) =
      (some (sort_values (parseTimestampCol sampleRaw "date") "date"), []) :=
  (((load_data_timestamp_standardization sampleRaw).2 "date" (by decide)).2.2).1

/-- C8: a failed fetch or parse makes `load_data` return an absent table
together with exactly one error message, and whenever either dataset is
absent `render_dashboard` emits the single warning and renders nothing
further. -/
theorem load_error_dashboard_warning (e : String) (tE tW : Option Table)
    (window_choice : String) (tolerance_pct : ℚ)
    (h : tE = none ∨ tW = none) :
    load_data (Except.error e) = (none, ["Error loading data: " ++ e])
    ∧ render_dashboard window_choice tolerance_pct tE tW
      = some [RenderItem.warning warningMsg] := by
  refine ⟨rfl, ?_⟩
  rcases h with h | h
  · subst h; rfl
  · subst h
    cases tE with
    | none => rfl
    | some edf => rfl

/-- Witness for C8: a failed energy fetch yields one error message and the
dashboard shows only the warning. -/
theorem load_error_dashboard_warning_witness :
    load_data (Except.error "fetch failed")
      = (none, ["Error loading data: " ++ "fetch failed"])
    ∧ render_dashboard "Global Average" 1 none (some sampleRaw)
      = some [RenderItem.warning warningMsg] :=
  load_error_dashboard_warning "fetch failed" none (some sampleRaw)
    "Global Average" 1 (Or.inl rfl)

/-- C9: two runs of the Dashboard view on the same fetched tables and
trend settings that differ only in the sidebar start/end date selections
render identical output: the date-range selection is never applied. -/
theorem date_range_never_applied (d1 d2 d1' d2' : ℚ) (window_choice : String)
    (tolerance_pct : ℚ) (energyFetch waterFetch : Except String Table) :
    main "Dashboard" d1 d2 window_choice tolerance_pct energyFetch waterFetch
    = main "Dashboard" d1' d2' window_choice tolerance_pct energyFetch waterFetch := rfl

end Aquatic
